import Mathlib

/-!
# TreeSense — verification of the single-image inference pipeline

Shallow embedding of the TreeSense client code:

* `TfModel` embeds the browser-side TensorFlow.js module (`src/lib/tfmodel`):
  the module-level mutable state (`model`, `classMapping`, `backendInitialized`),
  `loadModel`, and `predictImage` with its preprocessing
  (`resizeNearestNeighbor`, `div(255.0)`) and postprocessing
  (pairing probabilities with class names, the stable descending sort of
  ECMAScript `Array.prototype.sort`, `top3 = sorted.slice(0, 3)`).
* `Api` embeds the API client (`src/lib/api`): `predictImage`, which sends one
  `POST /predict` request and maps a non-OK response to a thrown error.

Probabilities/confidences are modelled as rationals (`ℚ`): every claim checked
here is about ordering, pairing and ranges, which IEEE doubles and `ℚ` agree on
for the values involved.
-/

/-- One entry of `top3` / `allProbabilities`:
`{ className: classMapping![String(index)], confidence: prob }`.
`className` is an `Option` because the JS `Record` lookup
`classMapping[String(index)]` yields `undefined` for a missing key. -/
structure LabelProb where
  className : Option String
  confidence : ℚ
deriving DecidableEq, Repr

/-- The `PredictionResult` interface of both client files
(`preprocessedImageUrl`, a UI-only data URL, is omitted). -/
structure PredictionResult where
  className : Option String
  confidence : ℚ
  top3 : List LabelProb
  allProbabilities : List LabelProb
deriving DecidableEq, Repr

namespace TfModel

/-- `probabilities.map((prob, index) => ({ className: classMapping![String(index)], confidence: prob }))`,
unrolled with an explicit running index (`i` is the index of the head of the
remaining probability list). -/
def allPredictionsFrom (classMapping : List String) : List ℚ → Nat → List LabelProb
  | [], _ => []
  | prob :: rest, i => ⟨classMapping.get? i, prob⟩ :: allPredictionsFrom classMapping rest (i + 1)

/-- The `allPredictions` array of `predictImage`: one pair per probability,
in label-set index order. -/
def allPredictions (classMapping : List String) (probabilities : List ℚ) : List LabelProb :=
  allPredictionsFrom classMapping probabilities 0

/-- Insertion step of the stable descending sort: walk past `y` while
`y.confidence` is strictly greater, so an inserted element lands before
elements of equal confidence that originally came after it. -/
def insertDesc (x : LabelProb) : List LabelProb → List LabelProb
  | [] => [x]
  | y :: ys => if x.confidence < y.confidence then y :: insertDesc x ys else x :: y :: ys

/-- `[...allPredictions].sort((a, b) => b.confidence - a.confidence)`:
ECMAScript `Array.prototype.sort` is stable, and this comparator orders by
descending confidence, so the result is the unique stable descending sort,
realised here as a stable insertion sort. -/
def sortDesc : List LabelProb → List LabelProb
  | [] => []
  | x :: xs => insertDesc x (sortDesc xs)

/-- The returned object of `predictImage`:
`{ className: sorted[0].className, confidence: sorted[0].confidence,
   top3: sorted.slice(0, 3), allProbabilities: allPredictions }`.
`none` models the `TypeError` thrown by `sorted[0].className` when `sorted`
is empty (`sorted[0]` is `undefined`). -/
def rankResponse (classMapping : List String) (probabilities : List ℚ) : Option PredictionResult :=
  match sortDesc (allPredictions classMapping probabilities) with
  | [] => none
  | best :: rest =>
      some ⟨best.className, best.confidence, (best :: rest).take 3,
            allPredictions classMapping probabilities⟩

/-! Helper lemmas about the stable descending sort and the pairing step. -/

theorem insertDesc_perm (x : LabelProb) (l : List LabelProb) :
    List.Perm (insertDesc x l) (x :: l) := by
  induction l with
  | nil => exact List.Perm.refl _
  | cons y ys ih =>
    by_cases hc : x.confidence < y.confidence
    · simp only [insertDesc, if_pos hc]
      exact (ih.cons y).trans (List.Perm.swap x y ys)
    · simp only [insertDesc, if_neg hc]
      exact List.Perm.refl _

theorem sortDesc_perm (l : List LabelProb) : List.Perm (sortDesc l) l := by
  induction l with
  | nil => exact List.Perm.refl _
  | cons x xs ih =>
    simp only [sortDesc]
    exact (insertDesc_perm x (sortDesc xs)).trans (ih.cons x)

theorem insertDesc_pairwise {x : LabelProb} {l : List LabelProb}
    (h : List.Pairwise (fun a b => b.confidence ≤ a.confidence) l) :
    List.Pairwise (fun a b => b.confidence ≤ a.confidence) (insertDesc x l) := by
  induction l with
  | nil => simp only [insertDesc]; exact List.pairwise_singleton _ _
  | cons y ys ih =>
    rw [List.pairwise_cons] at h
    by_cases hc : x.confidence < y.confidence
    · simp only [insertDesc, if_pos hc]
      rw [List.pairwise_cons]
      refine ⟨?_, ih h.2⟩
      intro z hz
      rcases List.mem_cons.mp ((insertDesc_perm x ys).mem_iff.mp hz) with rfl | hz2
      · exact le_of_lt hc
      · exact h.1 z hz2
    · simp only [insertDesc, if_neg hc]
      rw [List.pairwise_cons]
      refine ⟨?_, List.pairwise_cons.mpr h⟩
      intro z hz
      rcases List.mem_cons.mp hz with rfl | hz2
      · exact not_lt.mp hc
      · exact le_trans (h.1 z hz2) (not_lt.mp hc)

theorem sortDesc_pairwise (l : List LabelProb) :
    List.Pairwise (fun a b => b.confidence ≤ a.confidence) (sortDesc l) := by
  induction l with
  | nil => exact List.Pairwise.nil
  | cons x xs ih => simp only [sortDesc]; exact insertDesc_pairwise ih

theorem insertDesc_filter_eq (x : LabelProb) (l : List LabelProb) (c : ℚ) :
    (insertDesc x l).filter (fun z => decide (z.confidence = c)) =
      if x.confidence = c
      then x :: l.filter (fun z => decide (z.confidence = c))
      else l.filter (fun z => decide (z.confidence = c)) := by
  induction l with
  | nil =>
    by_cases hx : x.confidence = c
    · simp [insertDesc, hx]
    · simp [insertDesc, hx]
  | cons y ys ih =>
    by_cases hc : x.confidence < y.confidence
    · have hstep : insertDesc x (y :: ys) = y :: insertDesc x ys := by
        simp only [insertDesc, if_pos hc]
      rw [hstep, List.filter_cons, ih]
      by_cases hy : y.confidence = c
      · have hx : ¬ x.confidence = c := by
          intro hxc
          rw [hxc] at hc
          rw [hy] at hc
          exact lt_irrefl c hc
        rw [if_pos (show decide (y.confidence = c) = true by simp [hy]),
            if_neg hx, if_neg hx, List.filter_cons,
            if_pos (show decide (y.confidence = c) = true by simp [hy])]
      · rw [if_neg (show ¬ decide (y.confidence = c) = true by simp [hy])]
        by_cases hx : x.confidence = c
        · rw [if_pos hx, if_pos hx, List.filter_cons,
              if_neg (show ¬ decide (y.confidence = c) = true by simp [hy])]
        · rw [if_neg hx, if_neg hx, List.filter_cons,
              if_neg (show ¬ decide (y.confidence = c) = true by simp [hy])]
    · have hstep : insertDesc x (y :: ys) = x :: y :: ys := by
        simp only [insertDesc, if_neg hc]
      rw [hstep, List.filter_cons]
      by_cases hx : x.confidence = c
      · rw [if_pos (show decide (x.confidence = c) = true by simp [hx]), if_pos hx]
      · rw [if_neg (show ¬ decide (x.confidence = c) = true by simp [hx]), if_neg hx]

theorem sortDesc_filter_eq (l : List LabelProb) (c : ℚ) :
    (sortDesc l).filter (fun z => decide (z.confidence = c)) =
      l.filter (fun z => decide (z.confidence = c)) := by
  induction l with
  | nil => rfl
  | cons x xs ih =>
    simp only [sortDesc]
    rw [insertDesc_filter_eq]
    by_cases hx : x.confidence = c
    · rw [if_pos hx, ih, List.filter_cons, if_pos (by simp [hx])]
    · rw [if_neg hx, ih, List.filter_cons, if_neg (by simp [hx])]

theorem allPredictionsFrom_length (m : List String) (p : List ℚ) (i : Nat) :
    (allPredictionsFrom m p i).length = p.length := by
  induction p generalizing i with
  | nil => rfl
  | cons q qs ih => simp [allPredictionsFrom, ih]

theorem allPredictions_length (m : List String) (p : List ℚ) :
    (allPredictions m p).length = p.length :=
  allPredictionsFrom_length m p 0

theorem allPredictionsFrom_get? (m : List String) (p : List ℚ) (i j : Nat) :
    (allPredictionsFrom m p i).get? j =
      (p.get? j).map (fun q => ⟨m.get? (i + j), q⟩) := by
  induction p generalizing i j with
  | nil => simp [allPredictionsFrom]
  | cons q qs ih =>
    cases j with
    | zero => simp [allPredictionsFrom]
    | succ j =>
      simp only [allPredictionsFrom, List.get?_cons_succ]
      rw [ih]
      have hidx : i + 1 + j = i + (j + 1) := by omega
      rw [hidx]

theorem allPredictions_get? (m : List String) (p : List ℚ) (j : Nat) :
    (allPredictions m p).get? j = (p.get? j).map (fun q => ⟨m.get? j, q⟩) := by
  have h := allPredictionsFrom_get? m p 0 j
  simpa using h

theorem rankResponse_eq_some {m : List String} {p : List ℚ} {r : PredictionResult}
    (h : rankResponse m p = some r) :
    ∃ best rest, sortDesc (allPredictions m p) = best :: rest ∧
      r = ⟨best.className, best.confidence, (best :: rest).take 3, allPredictions m p⟩ := by
  unfold rankResponse at h
  cases hs : sortDesc (allPredictions m p) with
  | nil => rw [hs] at h; simp at h
  | cons best rest =>
    rw [hs] at h
    simp only [Option.some_inj] at h
    exact ⟨best, rest, rfl, h.symm⟩

end TfModel

/-! ## Claims C1 – C5: postprocessing of `predictImage` -/

/-- Claim C1, counterexample: with labels `["A","B","C"]` and probabilities
`[0.1, 0.7, 0.2]`, `predictImage` returns a result whose `allProbabilities`
is NOT sorted in descending order of confidence and whose `top3` is NOT a
prefix of `allProbabilities` — the source returns the unsorted,
index-ordered `allPredictions` array as `allProbabilities` while `top3`
is sliced from the sorted copy. -/
theorem claim1_counterexample :
    ∃ r, TfModel.rankResponse ["A", "B", "C"] [1/10, 7/10, 2/10] = some r ∧
      ¬ List.Pairwise (fun a b : LabelProb => b.confidence ≤ a.confidence)
          r.allProbabilities ∧
      r.top3 ≠ r.allProbabilities.take 3 := by
  have h1 : (1 : ℚ)/10 = mkRat 1 10 := by norm_num [Rat.mkRat_eq_div]
  have h7 : (7 : ℚ)/10 = mkRat 7 10 := by norm_num [Rat.mkRat_eq_div]
  have h2 : (2 : ℚ)/10 = mkRat 2 10 := by norm_num [Rat.mkRat_eq_div]
  rw [h1, h7, h2]
  refine ⟨⟨some "B", mkRat 7 10,
      [⟨some "B", mkRat 7 10⟩, ⟨some "C", mkRat 2 10⟩, ⟨some "A", mkRat 1 10⟩],
      [⟨some "A", mkRat 1 10⟩, ⟨some "B", mkRat 7 10⟩, ⟨some "C", mkRat 2 10⟩]⟩,
    ?_, ?_, ?_⟩
  · decide
  · decide
  · decide

/-- Claim C1, amended: `allProbabilities` holds one label/confidence pair per
probability-vector entry, in label-set index order (entry `j` pairs
`classMapping[j]` with `probabilities[j]`); it is not sorted. `top3` is the
3-element (or shorter) prefix of the separately sorted descending list, not
of `allProbabilities`. -/
theorem claim1_allProbabilities_index_order (m : List String) (p : List ℚ)
    (r : PredictionResult) (j : Nat)
    (h : TfModel.rankResponse m p = some r) :
    r.allProbabilities.length = p.length ∧
    r.allProbabilities.get? j = (p.get? j).map (fun q => ⟨m.get? j, q⟩) ∧
    r.top3 = (TfModel.sortDesc r.allProbabilities).take 3 := by
  obtain ⟨best, rest, hs, hr⟩ := TfModel.rankResponse_eq_some h
  subst hr
  refine ⟨TfModel.allPredictions_length m p, TfModel.allPredictions_get? m p j, ?_⟩
  simp only
  rw [hs]

/-- Claim C1, witness for the amended theorem at the 3-label scenario input. -/
theorem claim1_amended_witness :
    TfModel.rankResponse ["A", "B", "C"] [mkRat 1 10, mkRat 7 10, mkRat 2 10] =
      some ⟨some "B", mkRat 7 10,
        [⟨some "B", mkRat 7 10⟩, ⟨some "C", mkRat 2 10⟩, ⟨some "A", mkRat 1 10⟩],
        [⟨some "A", mkRat 1 10⟩, ⟨some "B", mkRat 7 10⟩, ⟨some "C", mkRat 2 10⟩]⟩ ∧
    (([⟨some "A", mkRat 1 10⟩, ⟨some "B", mkRat 7 10⟩, ⟨some "C", mkRat 2 10⟩] :
        List LabelProb).length = 3 ∧
     ([⟨some "A", mkRat 1 10⟩, ⟨some "B", mkRat 7 10⟩, ⟨some "C", mkRat 2 10⟩] :
        List LabelProb).get? 0 =
       (([mkRat 1 10, mkRat 7 10, mkRat 2 10] : List ℚ).get? 0).map
         (fun q => ⟨(["A", "B", "C"] : List String).get? 0, q⟩) ∧
     ([⟨some "B", mkRat 7 10⟩, ⟨some "C", mkRat 2 10⟩, ⟨some "A", mkRat 1 10⟩] :
        List LabelProb) =
       (TfModel.sortDesc
         [⟨some "A", mkRat 1 10⟩, ⟨some "B", mkRat 7 10⟩, ⟨some "C", mkRat 2 10⟩]).take 3) :=
  ⟨by decide,
   claim1_allProbabilities_index_order ["A", "B", "C"]
     [mkRat 1 10, mkRat 7 10, mkRat 2 10]
     ⟨some "B", mkRat 7 10,
       [⟨some "B", mkRat 7 10⟩, ⟨some "C", mkRat 2 10⟩, ⟨some "A", mkRat 1 10⟩],
       [⟨some "A", mkRat 1 10⟩, ⟨some "B", mkRat 7 10⟩, ⟨some "C", mkRat 2 10⟩]⟩
     0 (by decide)⟩

/-- Claim C2, counterexample: with labels `["A","B","C"]` and probabilities
`[0.1, 0.7, 0.2]`, the top-level `className` is `"B"` while
`allProbabilities[0].className` is `"A"` (the first element of the unsorted
index-ordered list), so the claimed equality fails. -/
theorem claim2_counterexample :
    ∃ r x, TfModel.rankResponse ["A", "B", "C"] [1/10, 7/10, 2/10] = some r ∧
      r.allProbabilities.get? 0 = some x ∧ r.className ≠ x.className := by
  have h1 : (1 : ℚ)/10 = mkRat 1 10 := by norm_num [Rat.mkRat_eq_div]
  have h7 : (7 : ℚ)/10 = mkRat 7 10 := by norm_num [Rat.mkRat_eq_div]
  have h2 : (2 : ℚ)/10 = mkRat 2 10 := by norm_num [Rat.mkRat_eq_div]
  rw [h1, h7, h2]
  refine ⟨⟨some "B", mkRat 7 10,
      [⟨some "B", mkRat 7 10⟩, ⟨some "C", mkRat 2 10⟩, ⟨some "A", mkRat 1 10⟩],
      [⟨some "A", mkRat 1 10⟩, ⟨some "B", mkRat 7 10⟩, ⟨some "C", mkRat 2 10⟩]⟩,
    ⟨some "A", mkRat 1 10⟩, ?_, ?_, ?_⟩
  · decide
  · decide
  · decide

/-- Claim C2, amended: the top-level `className` (and `confidence`) equal those
of the first element of the SORTED descending list — equivalently of
`top3[0]` — not of `allProbabilities[0]`; the two coincide only when label 0
already has the highest confidence. -/
theorem claim2_className_from_sorted_head (m : List String) (p : List ℚ)
    (r : PredictionResult)
    (h : TfModel.rankResponse m p = some r) :
    (TfModel.sortDesc (TfModel.allPredictions m p)).head? =
        some ⟨r.className, r.confidence⟩ ∧
    r.top3.head? = some ⟨r.className, r.confidence⟩ := by
  obtain ⟨best, rest, hs, hr⟩ := TfModel.rankResponse_eq_some h
  subst hr
  rw [hs]
  simp [List.take]

/-- Claim C2, witness for the amended theorem at the 3-label scenario input. -/
theorem claim2_amended_witness :
    (TfModel.sortDesc (TfModel.allPredictions ["A", "B", "C"]
        [mkRat 1 10, mkRat 7 10, mkRat 2 10])).head? =
      some ⟨some "B", mkRat 7 10⟩ ∧
    ([⟨some "B", mkRat 7 10⟩, ⟨some "C", mkRat 2 10⟩, ⟨some "A", mkRat 1 10⟩] :
        List LabelProb).head? = some ⟨some "B", mkRat 7 10⟩ :=
  claim2_className_from_sorted_head ["A", "B", "C"]
    [mkRat 1 10, mkRat 7 10, mkRat 2 10]
    ⟨some "B", mkRat 7 10,
      [⟨some "B", mkRat 7 10⟩, ⟨some "C", mkRat 2 10⟩, ⟨some "A", mkRat 1 10⟩],
      [⟨some "A", mkRat 1 10⟩, ⟨some "B", mkRat 7 10⟩, ⟨some "C", mkRat 2 10⟩]⟩
    (by decide)

/-- Claim C3: for labels `["A","B","C"]` and probability vector `[0.1, 0.7, 0.2]`,
the pipeline's response has `className = "B"`, `confidence = 0.7`, and
`top3 = [(B, 0.7), (C, 0.2), (A, 0.1)]` in that order (and `allProbabilities`
is the index-ordered list). -/
theorem claim3_three_label_scenario :
    TfModel.rankResponse ["A", "B", "C"] [1/10, 7/10, 2/10] =
      some ⟨some "B", 7/10,
            [⟨some "B", 7/10⟩, ⟨some "C", 2/10⟩, ⟨some "A", 1/10⟩],
            [⟨some "A", 1/10⟩, ⟨some "B", 7/10⟩, ⟨some "C", 2/10⟩]⟩ := by
  have h1 : (1 : ℚ)/10 = mkRat 1 10 := by norm_num [Rat.mkRat_eq_div]
  have h7 : (7 : ℚ)/10 = mkRat 7 10 := by norm_num [Rat.mkRat_eq_div]
  have h2 : (2 : ℚ)/10 = mkRat 2 10 := by norm_num [Rat.mkRat_eq_div]
  rw [h1, h7, h2]
  decide

/-- Claim C4: for every label set and probability vector, the ranking sort
orders pairs by descending confidence (`Pairwise`), is a permutation of the
index-ordered pairing, and is stable: for each confidence value `c`, the
pairs of confidence `c` appear in exactly their original order, which is
ascending label-set index — so equal-probability pairs are ordered by
ascending index, and the output is a function of the input alone. -/
theorem claim4_sort_descending_stable (m : List String) (p : List ℚ) :
    List.Pairwise (fun a b : LabelProb => b.confidence ≤ a.confidence)
        (TfModel.sortDesc (TfModel.allPredictions m p)) ∧
    List.Perm (TfModel.sortDesc (TfModel.allPredictions m p))
        (TfModel.allPredictions m p) ∧
    ∀ c : ℚ,
      (TfModel.sortDesc (TfModel.allPredictions m p)).filter
          (fun z => decide (z.confidence = c)) =
        (TfModel.allPredictions m p).filter (fun z => decide (z.confidence = c)) :=
  ⟨TfModel.sortDesc_pairwise _, TfModel.sortDesc_perm _,
   fun c => TfModel.sortDesc_filter_eq _ c⟩

/-- Claim C5: whenever `predictImage` returns a result (in particular for label
sets with fewer than 3 entries), `top3 = sorted.slice(0, 3)` is total: it is
the first `min 3 |labels|` elements of the sorted list, with no
out-of-bounds access. -/
theorem claim5_top3_min_three (m : List String) (p : List ℚ)
    (r : PredictionResult)
    (hlen : p.length = m.length)
    (h : TfModel.rankResponse m p = some r) :
    r.top3 = (TfModel.sortDesc (TfModel.allPredictions m p)).take 3 ∧
    r.top3.length = min 3 m.length := by
  obtain ⟨best, rest, hs, hr⟩ := TfModel.rankResponse_eq_some h
  subst hr
  have hlen2 : (best :: rest).length = m.length := by
    rw [← hs, (TfModel.sortDesc_perm _).length_eq, TfModel.allPredictions_length, hlen]
  constructor
  · simp only
    rw [hs]
  · simp only
    rw [List.length_take, hlen2]

/-- Claim C5, witness at a 2-label set: `top3` has `min 3 2 = 2` entries and
no crash occurs. -/
theorem claim5_witness :
    ([mkRat 3 10, mkRat 7 10] : List ℚ).length = (["A", "B"] : List String).length ∧
    (([⟨some "B", mkRat 7 10⟩, ⟨some "A", mkRat 3 10⟩] : List LabelProb) =
        (TfModel.sortDesc (TfModel.allPredictions ["A", "B"]
          [mkRat 3 10, mkRat 7 10])).take 3 ∧
     ([⟨some "B", mkRat 7 10⟩, ⟨some "A", mkRat 3 10⟩] : List LabelProb).length =
        min 3 (["A", "B"] : List String).length) :=
  ⟨by decide,
   claim5_top3_min_three ["A", "B"] [mkRat 3 10, mkRat 7 10]
     ⟨some "B", mkRat 7 10,
       [⟨some "B", mkRat 7 10⟩, ⟨some "A", mkRat 3 10⟩],
       [⟨some "A", mkRat 3 10⟩, ⟨some "B", mkRat 7 10⟩]⟩
     (by decide) (by decide)⟩

/-! ## Module state of `src/lib/tfmodel`: lazy `loadModel` and its lifecycle -/

namespace TfModel

/-- The module-level mutable references of the tfmodel file:
`let model = null; let classMapping = null; let backendInitialized = false;`.
The opaque loaded `tf.LayersModel` is a type parameter `M`; the class mapping
`Record<string, string>` with keys `"0" .. "n-1"` is modelled by its list of
values in key order. -/
structure ModuleState (M : Type) where
  model : Option M
  classMapping : Option (List String)
  backendInitialized : Bool
deriving DecidableEq, Repr

/-- The environment-determined outcome of the work inside one `loadModel`
attempt: the class-mapping fetch fails; or the mapping loads but the model
load (or its 2-minute timeout race) throws; or both artifacts load. -/
inductive LoadOutcome (M : Type) where
  | mappingFailure (msg : String)
  | modelFailure (mapping : List String) (msg : String)
  | success (mapping : List String) (m : M)
deriving DecidableEq, Repr

variable {M : Type}

/-- `loadModel`: `if (!model) { try { ... classMapping = ...; model = ...; }
catch (error) { model = null; classMapping = null; throw error; } }
return model;`. When the model reference is already non-null the body is
skipped entirely; a failing attempt resets both references to `null` in the
`catch` before rethrowing (`backendInitialized`, set to `true` by both paths
of `initializeBackend`, is not reset). -/
def loadModel (o : LoadOutcome M) (st : ModuleState M) :
    ModuleState M × Except String M :=
  match st.model with
  | some m => (st, .ok m)
  | none =>
    match o with
    | .mappingFailure msg => (⟨none, none, true⟩, .error msg)
    | .modelFailure _ msg => (⟨none, none, true⟩, .error msg)
    | .success mapping m => (⟨some m, some mapping, true⟩, .ok m)

/-- The body of `predictImage` after loading: `classMapping![String(index)]` is
read while building `allPredictions`, so a `null` class-mapping reference
throws a `TypeError`; otherwise the ranked response is built by
`rankResponse` (whose `none` is the `sorted[0]` `TypeError`). -/
def runPrediction (cm : Option (List String)) (probs : List ℚ) :
    Except String PredictionResult :=
  match cm with
  | none => .error "TypeError"
  | some mapping =>
    match rankResponse mapping probs with
    | some r => .ok r
    | none => .error "TypeError"

/-- The tfmodel `predictImage(imageElement)`: `if (!model) await loadModel();`
(a `loadModel` failure propagates to the caller), then one forward pass
`model.predict(tensor)` (the opaque `infer`) and the postprocessing of
`rankResponse`. The returned pair is (module state after the call, result). -/
def predictImage (o : LoadOutcome M) (infer : M → List ℚ) (st : ModuleState M) :
    ModuleState M × Except String PredictionResult :=
  match st.model with
  | some m => (st, runPrediction st.classMapping (infer m))
  | none =>
    match loadModel o st with
    | (st2, .error e) => (st2, .error e)
    | (st2, .ok m) => (st2, runPrediction st2.classMapping (infer m))

/-- A sequence of `loadModel` calls (one outcome per call), threading the
module state. -/
def runLoads : List (LoadOutcome M) → ModuleState M → ModuleState M
  | [], st => st
  | o :: os, st => runLoads os (loadModel o st).1

/-- How many calls of the sequence perform the loading work, i.e. enter the
`if (!model)` body: exactly those that find the model reference `null`. -/
def loadWorkCount : List (LoadOutcome M) → ModuleState M → Nat
  | [], _ => 0
  | o :: os, st =>
    (if st.model.isNone then 1 else 0) + loadWorkCount os (loadModel o st).1

/-- How many calls of the sequence perform the loading work AND succeed. -/
def successfulLoadCount : List (LoadOutcome M) → ModuleState M → Nat
  | [], _ => 0
  | o :: os, st =>
    (match st.model, o with
     | none, .success _ _ => 1
     | _, _ => 0) + successfulLoadCount os (loadModel o st).1

theorem loadModel_of_some {st : ModuleState M} {m : M} (h : st.model = some m)
    (o : LoadOutcome M) : loadModel o st = (st, .ok m) := by
  unfold loadModel
  rw [h]

theorem runLoads_of_loaded {st : ModuleState M} {m : M} (h : st.model = some m)
    (os : List (LoadOutcome M)) : runLoads os st = st := by
  induction os with
  | nil => rfl
  | cons o os ih =>
    simp only [runLoads, loadModel_of_some h o]
    exact ih

theorem loadWorkCount_of_loaded {st : ModuleState M} {m : M} (h : st.model = some m)
    (os : List (LoadOutcome M)) : loadWorkCount os st = 0 := by
  induction os with
  | nil => rfl
  | cons o os ih =>
    simp only [loadWorkCount, loadModel_of_some h o, h, Option.isNone_some,
      Bool.false_eq_true, if_false, Nat.zero_add]
    exact ih

theorem successfulLoadCount_of_loaded {st : ModuleState M} {m : M}
    (h : st.model = some m) (os : List (LoadOutcome M)) :
    successfulLoadCount os st = 0 := by
  induction os with
  | nil => rfl
  | cons o os ih =>
    simp only [successfulLoadCount, loadModel_of_some h o, h]
    simpa using ih

theorem successfulLoadCount_le_one (os : List (LoadOutcome M))
    (st : ModuleState M) : successfulLoadCount os st ≤ 1 := by
  induction os generalizing st with
  | nil => exact Nat.zero_le 1
  | cons o os ih =>
    cases hm : st.model with
    | some m =>
      rw [successfulLoadCount_of_loaded hm]
      exact Nat.zero_le 1
    | none =>
      cases o with
      | success mapping m =>
        simp only [successfulLoadCount, hm, loadModel]
        rw [successfulLoadCount_of_loaded (show (⟨some m, some mapping, true⟩ :
          ModuleState M).model = some m from rfl)]
      | mappingFailure msg =>
        simp only [successfulLoadCount, hm, loadModel, Nat.zero_add]
        exact ih _
      | modelFailure mapping msg =>
        simp only [successfulLoadCount, hm, loadModel, Nat.zero_add]
        exact ih _

end TfModel

/-! ## Claims C6, C7, C10: lifecycle of the shared model and class mapping -/

/-- Claim C6, counterexample: the first prediction call on the fresh module
state (`model === null`) performs the lazy load and mutates BOTH module-level
references: the model reference and the class-mapping reference differ after
the call from before it. -/
theorem claim6_counterexample :
    ((TfModel.predictImage (TfModel.LoadOutcome.success ["A"] 0)
        (fun _ : Nat => [mkRat 1 1]) ⟨none, none, false⟩).1.model ≠
      (⟨none, none, false⟩ : TfModel.ModuleState Nat).model) ∧
    ((TfModel.predictImage (TfModel.LoadOutcome.success ["A"] 0)
        (fun _ : Nat => [mkRat 1 1]) ⟨none, none, false⟩).1.classMapping ≠
      (⟨none, none, false⟩ : TfModel.ModuleState Nat).classMapping) := by
  constructor
  · decide
  · decide

/-- Claim C6, amended: once the model has been loaded (module-level model
reference non-null), no prediction call mutates the shared state — the model
reference and the class-mapping reference are identical after the call; only
the very first call, which performs the lazy initialization, populates them. -/
theorem claim6_no_mutation_once_loaded {M : Type} (o : TfModel.LoadOutcome M)
    (infer : M → List ℚ) (st : TfModel.ModuleState M) (m : M)
    (h : st.model = some m) :
    (TfModel.predictImage o infer st).1 = st ∧
    (TfModel.predictImage o infer st).1.model = st.model ∧
    (TfModel.predictImage o infer st).1.classMapping = st.classMapping := by
  have hstep : TfModel.predictImage o infer st =
      (st, TfModel.runPrediction st.classMapping (infer m)) := by
    unfold TfModel.predictImage
    rw [h]
  rw [hstep]
  exact ⟨rfl, rfl, rfl⟩

/-- Claim C6, witness: a loaded state is untouched by a prediction call. -/
theorem claim6_witness :
    ((⟨some 5, some ["A"], true⟩ : TfModel.ModuleState Nat).model = some 5) ∧
    (TfModel.predictImage (TfModel.LoadOutcome.mappingFailure "boom")
        (fun _ : Nat => [mkRat 7 10]) ⟨some 5, some ["A"], true⟩).1 =
      (⟨some 5, some ["A"], true⟩ : TfModel.ModuleState Nat) :=
  ⟨rfl,
   (claim6_no_mutation_once_loaded (TfModel.LoadOutcome.mappingFailure "boom")
     (fun _ : Nat => [mkRat 7 10]) ⟨some 5, some ["A"], true⟩ 5 rfl).1⟩

/-- Claim C7, counterexample: the loading work is NOT performed at most once
per process lifetime — after a failed first attempt the guard `if (!model)`
finds `null` again and the second call re-runs the loading work: a sequence
of two calls whose first attempt fails performs the loading work twice. -/
theorem claim7_counterexample :
    TfModel.loadWorkCount
      [TfModel.LoadOutcome.mappingFailure "Class mapping not found: 404",
       TfModel.LoadOutcome.mappingFailure "Class mapping not found: 404"]
      (⟨none, none, false⟩ : TfModel.ModuleState Nat) = 2 := by
  decide

/-- Claim C7, amended: the load SUCCEEDS at most once per process lifetime
(any call sequence contains at most one successful load attempt), and once it
has succeeded — the model reference is non-null — every later call skips the
loading work entirely and observes the very same shared model and class
mapping; a failed attempt, however, resets the references and the next call
re-attempts the load. -/
theorem claim7_load_once_after_success {M : Type}
    (os : List (TfModel.LoadOutcome M)) (st : TfModel.ModuleState M) (m : M)
    (h : st.model = some m) :
    TfModel.runLoads os st = st ∧
    TfModel.loadWorkCount os st = 0 ∧
    TfModel.successfulLoadCount os
      (⟨none, none, false⟩ : TfModel.ModuleState M) ≤ 1 :=
  ⟨TfModel.runLoads_of_loaded h os, TfModel.loadWorkCount_of_loaded h os,
   TfModel.successfulLoadCount_le_one os _⟩

/-- Claim C7, witness: after a successful load, two further calls (one of them
with a failing environment) change nothing and perform no loading work. -/
theorem claim7_witness :
    ((⟨some 3, some ["A", "B"], true⟩ : TfModel.ModuleState Nat).model = some 3) ∧
    (TfModel.runLoads
        [TfModel.LoadOutcome.mappingFailure "down",
         TfModel.LoadOutcome.success ["C"] 9]
        (⟨some 3, some ["A", "B"], true⟩ : TfModel.ModuleState Nat) =
      ⟨some 3, some ["A", "B"], true⟩ ∧
     TfModel.loadWorkCount
        [TfModel.LoadOutcome.mappingFailure "down",
         TfModel.LoadOutcome.success ["C"] 9]
        (⟨some 3, some ["A", "B"], true⟩ : TfModel.ModuleState Nat) = 0 ∧
     TfModel.successfulLoadCount
        [TfModel.LoadOutcome.mappingFailure "down",
         TfModel.LoadOutcome.success ["C"] 9]
        (⟨none, none, false⟩ : TfModel.ModuleState Nat) ≤ 1) :=
  ⟨rfl,
   claim7_load_once_after_success
     [TfModel.LoadOutcome.mappingFailure "down", TfModel.LoadOutcome.success ["C"] 9]
     ⟨some 3, some ["A", "B"], true⟩ 3 rfl⟩

/-- Claim C10: model loading is atomic on failure — whenever `loadModel`
reports an error, the `catch` block has already reset both the module-level
model reference and the class-mapping reference to `null` before rethrowing,
so no half-initialized state (e.g. mapping set but model `null`) survives and
a later call re-attempts the full load from scratch. -/
theorem claim10_load_failure_resets_state {M : Type} (o : TfModel.LoadOutcome M)
    (st : TfModel.ModuleState M) (e : String)
    (h : (TfModel.loadModel o st).2 = .error e) :
    (TfModel.loadModel o st).1.model = none ∧
    (TfModel.loadModel o st).1.classMapping = none := by
  cases hm : st.model with
  | some m =>
    rw [TfModel.loadModel_of_some hm o] at h
    simp at h
  | none =>
    cases o with
    | mappingFailure msg => simp [TfModel.loadModel, hm]
    | modelFailure mapping msg => simp [TfModel.loadModel, hm]
    | success mapping m => simp [TfModel.loadModel, hm] at h

/-- Claim C10, witness: a failing first load leaves both references `null`. -/
theorem claim10_witness :
    ((TfModel.loadModel
        (TfModel.LoadOutcome.modelFailure ["A"] "Model loading timeout after 2 minutes.")
        (⟨none, none, false⟩ : TfModel.ModuleState Nat)).2 =
      Except.error "Model loading timeout after 2 minutes.") ∧
    ((TfModel.loadModel
        (TfModel.LoadOutcome.modelFailure ["A"] "Model loading timeout after 2 minutes.")
        (⟨none, none, false⟩ : TfModel.ModuleState Nat)).1.model = none ∧
     (TfModel.loadModel
        (TfModel.LoadOutcome.modelFailure ["A"] "Model loading timeout after 2 minutes.")
        (⟨none, none, false⟩ : TfModel.ModuleState Nat)).1.classMapping = none) :=
  ⟨rfl,
   claim10_load_failure_resets_state
     (TfModel.LoadOutcome.modelFailure ["A"] "Model loading timeout after 2 minutes.")
     ⟨none, none, false⟩ "Model loading timeout after 2 minutes." rfl⟩

/-! ## Claim C9: preprocessing normalizes pixel values into the unit interval -/

namespace TfModel

/-- `tf.browser.fromPixels(imageElement).resizeNearestNeighbor([224, 224])`:
nearest-neighbour resizing copies source pixels — each output channel value
is the source channel value read at a computed nearest source index, never an
interpolated value. `idxs` is the list of source indices the resize reads
from the flattened source channel values `pixels` (0–255 integers). -/
def resizeNearestNeighbor (pixels : List Nat) (idxs : List Nat) : List Nat :=
  idxs.filterMap fun i => pixels.get? i

/-- `resized.toFloat().div(255.0)` applied to one channel value. -/
def normalizePixel (p : Nat) : ℚ := (p : ℚ) / 255

/-- The input tensor of `model.predict`: every resized channel value divided
by 255 (the `expandDims(0)` batch dimension is shape only and is omitted). -/
def preprocessTensor (resized : List Nat) : List ℚ := resized.map normalizePixel

end TfModel

/-- Claim C9: for every decoded image whose channel values lie in `0..255`,
every entry of the input tensor produced by preprocessing (resize by
nearest-neighbour copying, then division by 255.0) lies in the closed
interval `[0, 1]`. -/
theorem claim9_tensor_in_unit_interval (pixels idxs : List Nat) (q : ℚ)
    (hpix : ∀ p ∈ pixels, p ≤ 255)
    (hq : q ∈ TfModel.preprocessTensor (TfModel.resizeNearestNeighbor pixels idxs)) :
    0 ≤ q ∧ q ≤ 1 := by
  obtain ⟨p, hp, rfl⟩ := List.mem_map.mp hq
  obtain ⟨i, hmem, hget⟩ := List.mem_filterMap.mp hp
  have hle : p ≤ 255 := hpix p (List.get?_mem hget)
  unfold TfModel.normalizePixel
  constructor
  · positivity
  · rw [div_le_one (by norm_num)]
    exact_mod_cast hle

/-- Claim C9, witness: the tensor entry produced from the source pixel value
128 (read by the resize at index 1) lies in `[0, 1]`. -/
theorem claim9_witness :
    0 ≤ TfModel.normalizePixel 128 ∧ TfModel.normalizePixel 128 ≤ 1 :=
  claim9_tensor_in_unit_interval [0, 128, 255] [1] (TfModel.normalizePixel 128)
    (by decide)
    (by simp [TfModel.preprocessTensor, TfModel.resizeNearestNeighbor, List.filterMap])

/-! ## Claim C8: the API client turns every non-OK response into an error -/

namespace Api

/-- Does `hay` start with `needle`? (helper for the substring test). -/
def headMatch : List Char → List Char → Bool
  | [], _ => true
  | _ :: _, [] => false
  | c :: cs, d :: ds => c == d && headMatch cs ds

/-- ECMAScript `hay.includes(needle)`: `needle` occurs contiguously in `hay`. -/
def includesSub (needle : List Char) : List Char → Bool
  | [] => needle.isEmpty
  | d :: ds => headMatch needle (d :: ds) || includesSub needle ds

/-- The generic message built from the HTTP status when the error body yields
no usable message (the template string in
`throw new Error(errorData.error || ...)`). -/
def serverErrorGeneric (status : Nat) : String :=
  "Server error: " ++ toString status

/-- `errorData.error || <generic>`: JavaScript `||` falls through both on a
missing `error` field (here `none` — also the result of the
`.catch(() => ...)` default being absent) and on an empty string (falsy). -/
def thrownMessage (status : Nat) (errorField : Option String) : String :=
  match errorField with
  | some e => if e = "" then serverErrorGeneric status else e
  | none => serverErrorGeneric status

/-- The ad-blocker diagnostic substituted by the catch block when the caught
error message includes "Failed to fetch" (or the error is a fetch TypeError). -/
def blockedMessage : String :=
  "Request blocked by browser/ad blocker. Try disabling ad blockers for 127.0.0.1:5000"

/-- The `catch` of the API client `predictImage`: a caught error that looks
like a blocked/failed fetch becomes `blockedMessage`; every other error is
rethrown as `API prediction failed: <message>`. -/
def catchWrap (isTypeError : Bool) (msg : String) : String :=
  if (includesSub "Failed to fetch".toList msg.toList || isTypeError) = true
  then blockedMessage
  else "API prediction failed: " ++ msg

/-- What the single `fetch('POST /predict')` round trip produced: an OK
response with a parsed result body, a non-OK response with its status and the
optional `error` field of its JSON body, or a rejected fetch (TypeError). -/
inductive ServerReply where
  | okReply (result : PredictionResult)
  | errReply (status : Nat) (errorField : Option String)
  | fetchRejected (msg : String)

/-- The API client `predictImage`: exactly one request is sent (the code
contains a single `fetch` and no retry loop — the pair's second component
counts requests). A non-OK response throws
`new Error(errorData.error || 'Server error: <status>')`, which the
surrounding catch rethrows via `catchWrap`; an OK response resolves to the
parsed result. -/
def predictImage (reply : ServerReply) : Except String PredictionResult × Nat :=
  match reply with
  | .okReply r => (.ok r, 1)
  | .errReply status errorField =>
      (.error (catchWrap false (thrownMessage status errorField)), 1)
  | .fetchRejected msg => (.error (catchWrap true msg), 1)

theorem headMatch_refl (s : List Char) : headMatch s s = true := by
  induction s with
  | nil => rfl
  | cons c cs ih => simp [headMatch, ih]

theorem includesSub_self (s : List Char) : includesSub s s = true := by
  cases s with
  | nil => rfl
  | cons d ds =>
    simp only [includesSub]
    rw [headMatch_refl]
    simp

theorem includesSub_append_left (t s : List Char) :
    includesSub s (t ++ s) = true := by
  induction t with
  | nil => simpa using includesSub_self s
  | cons d ds ih =>
    simp only [List.cons_append, includesSub, List.append_eq]
    rw [ih]
    simp

end Api

/-- Claim C8: for every server response whose status is not OK, the client
`predictImage` yields an error and no prediction result, having sent exactly
one request (no retry); the thrown message carries the server's `error`
message inside it, or is a generic one (the status-derived `Server error:`
message, or the ad-blocker diagnostic). -/
theorem claim8_non_ok_throws (status : Nat) (errorField : Option String) :
    ∃ e, Api.predictImage (Api.ServerReply.errReply status errorField) =
        (Except.error e, 1) ∧
      ((∃ msg, errorField = some msg ∧
          Api.includesSub msg.toList e.toList = true) ∨
       Api.includesSub (Api.serverErrorGeneric status).toList e.toList = true ∨
       e = Api.blockedMessage) := by
  refine ⟨Api.catchWrap false (Api.thrownMessage status errorField), rfl, ?_⟩
  by_cases hblock :
      (Api.includesSub "Failed to fetch".toList
        (Api.thrownMessage status errorField).toList || false) = true
  · right; right
    unfold Api.catchWrap
    rw [if_pos hblock]
  · have hwrap : Api.catchWrap false (Api.thrownMessage status errorField) =
        "API prediction failed: " ++ Api.thrownMessage status errorField := by
      unfold Api.catchWrap
      rw [if_neg hblock]
    rw [hwrap]
    cases errorField with
    | none =>
      right; left
      have : Api.thrownMessage status none = Api.serverErrorGeneric status := rfl
      rw [this]
      rw [show ("API prediction failed: " ++ Api.serverErrorGeneric status).toList =
            "API prediction failed: ".toList ++ (Api.serverErrorGeneric status).toList
          by simp]
      exact Api.includesSub_append_left _ _
    | some msg =>
      by_cases hempty : msg = ""
      · right; left
        have : Api.thrownMessage status (some msg) = Api.serverErrorGeneric status := by
          simp only [Api.thrownMessage]
          rw [if_pos hempty]
        rw [this]
        rw [show ("API prediction failed: " ++ Api.serverErrorGeneric status).toList =
              "API prediction failed: ".toList ++ (Api.serverErrorGeneric status).toList
            by simp]
        exact Api.includesSub_append_left _ _
      · left
        refine ⟨msg, rfl, ?_⟩
        have : Api.thrownMessage status (some msg) = msg := by
          simp only [Api.thrownMessage]
          rw [if_neg hempty]
        rw [this]
        rw [show ("API prediction failed: " ++ msg).toList =
              "API prediction failed: ".toList ++ msg.toList by simp]
        exact Api.includesSub_append_left _ _
